import Mathlib

/-!
Verification of the Magic Tournament Management System client.

Shallow embedding of the TypeScript frontend: the axios service wrappers
(tournamentService / matchService / apiClient), the tournament detail page
(TournamentCreate.tsx), the match-result entry page (MatchResult, part_004)
and the bracket view (BracketView.tsx).  Requests are modelled as
method/path data, React render output as pure functions from component
state to the offered controls, and event handlers as pure functions from
state to outcomes (service calls issued, errors set).

The backend (Python Flask, listed in tree.txt but absent from the source
snapshot) is modelled from the specification where a claim depends on it;
such definitions are marked `Modelled from the spec:`.
-/

namespace TMS

/-- HTTP method of a request issued through the axios `apiClient`. -/
inductive Method
  | get
  | post
  | put
  | delete
deriving DecidableEq, Repr

/-- A request issued through `apiClient`: method and URL path (query/body
modelled separately where a claim needs them). -/
structure Request where
  method : Method
  path : String
deriving DecidableEq, Repr

/-- JavaScript truthiness of an optional string (`undefined` and the empty
string are falsy). -/
def jsTruthy : Option String → Bool
  | none => false
  | some s => !s.isEmpty

/-- JavaScript `a || b` where `a` is an optional string and `b` the
fallback: yields `b` when `a` is `undefined` or empty. -/
def jsOrElse (a : Option String) (b : String) : String :=
  match a with
  | some s => if s.isEmpty then b else s
  | none => b

/-- Player record (tournamentService.ts, `interface Player`). -/
structure Player where
  id : String
  name : String
  email : String
  active : Bool
deriving DecidableEq, Repr

/-- `structure_config` of a tournament (tournamentService.ts,
`interface Tournament`); every field is optional there. -/
structure StructureConfig where
  allow_intentional_draws : Option Bool
  use_seeds_for_byes : Option Bool
  seeded : Option Bool
  third_place_match : Option Bool
  grand_finals_modifier : Option String
deriving DecidableEq, Repr

/-- `tiebreakers` configuration of a tournament (tournamentService.ts). -/
structure Tiebreakers where
  match_points : Bool
  opponents_match_win_percentage : Bool
  game_win_percentage : Bool
  opponents_game_win_percentage : Bool
deriving DecidableEq, Repr

/-- Tournament record (tournamentService.ts, `interface Tournament`).
The untyped `format_config : any` payload is not carried: no verified
claim reads it. -/
structure Tournament where
  id : Option String
  name : String
  format : String
  «structure» : String
  date : String
  location : String
  status : String
  rounds : Nat
  current_round : Nat
  time_limit : Nat
  structure_config : StructureConfig
  tiebreakers : Tiebreakers
deriving DecidableEq, Repr

/-- Match record (tournamentService.ts, `interface Match`). -/
structure Match where
  id : String
  tournament_id : String
  round : Nat
  bracket : Option String
  bracket_position : Option Nat
  table_number : Nat
  player1_id : String
  player1_name : String
  player2_id : Option String
  player2_name : Option String
  player1_wins : Nat
  player2_wins : Nat
  draws : Nat
  status : String
  result : String
  next_match : Option Nat
  winners_next_match : Option Nat
  losers_next_match : Option Nat
deriving DecidableEq, Repr

/-- Standing record (tournamentService.ts, `interface Standing`).
Percentages are JS numbers; they are embedded as rationals. -/
structure Standing where
  id : String
  player_id : String
  player_name : String
  rank : Nat
  matches_played : Nat
  match_points : Nat
  game_points : Nat
  match_win_percentage : Rat
  game_win_percentage : Rat
  opponents_match_win_percentage : Rat
  opponents_game_win_percentage : Rat
  active : Bool
deriving DecidableEq, Repr

namespace TournamentService

/-- `TournamentService.startNextRound` (tournamentService.ts): POST to the
next-round endpoint. -/
def startNextRound (id : String) : Request :=
  ⟨.post, "/tournaments/" ++ id ++ "/rounds/next"⟩

/-- `TournamentService.getStandings` (tournamentService.ts). -/
def getStandings (id : String) : Request :=
  ⟨.get, "/tournaments/" ++ id ++ "/standings"⟩

/-- `TournamentService.updateStandings` (tournamentService.ts): PUT whose
body is `{ standings }`. -/
def updateStandings (id : String) : Request :=
  ⟨.put, "/tournaments/" ++ id ++ "/standings"⟩

/-- `TournamentService.startTournament` (tournamentService.ts). -/
def startTournament (id : String) : Request :=
  ⟨.post, "/tournaments/" ++ id ++ "/start"⟩

/-- `TournamentService.endTournament` (tournamentService.ts). -/
def endTournament (id : String) : Request :=
  ⟨.post, "/tournaments/" ++ id ++ "/end"⟩

/-- `TournamentService.drawMatch` (tournamentService.ts): marks a match as
a draw. -/
def drawMatch (matchId : String) : Request :=
  ⟨.post, "/matches/" ++ matchId ++ "/draw"⟩

end TournamentService

namespace MatchService

/-- `MatchService.submitResult` (matchService.ts): POST of the result form
data. -/
def submitResult (id : String) : Request :=
  ⟨.post, "/matches/" ++ id ++ "/result"⟩

/-- `MatchService.submitIntentionalDraw` (matchService.ts). -/
def submitIntentionalDraw (id : String) : Request :=
  ⟨.post, "/matches/" ++ id ++ "/intentional-draw"⟩

end MatchService

namespace MatchResultPage

/-- The `formData` state of the MatchResult page (part_004). -/
structure ResultFormData where
  player1_wins : Nat
  player2_wins : Nat
  draws : Nat
deriving DecidableEq, Repr

/-- Outcome of `handleSubmit` (part_004, lines 71-106): blocked by HTML
form validation, rejected by the all-zero check, or submitted to
`MatchService.submitResult`. -/
inductive SubmitOutcome
  | invalidBlocked
  | zeroRejected (msg : String)
  | submitted (payload : ResultFormData)
deriving DecidableEq, Repr

/-- `handleSubmit` (part_004): `form.checkValidity()` gate first, then the
all-zero validation, then exactly one `MatchService.submitResult` call
with the form data as entered. -/
def handleSubmit (checkValidity : Bool) (fd : ResultFormData) : SubmitOutcome :=
  if checkValidity = false then
    .invalidBlocked
  else if fd.player1_wins = 0 ∧ fd.player2_wins = 0 ∧ fd.draws = 0 then
    .zeroRejected "At least one player must have wins or there must be draws"
  else
    .submitted fd

/-- The `MatchService.submitResult` payloads issued by a `handleSubmit`
outcome (one per `.submitted`, none otherwise). -/
def submitCalls : SubmitOutcome → List ResultFormData
  | .submitted fd => [fd]
  | _ => []

/-- A rendered number form control of the result-entry form (part_004,
lines 225-267): `name`, `min`, `max` and `required` attributes. -/
structure NumberControl where
  name : String
  min : Nat
  max : Nat
  required : Bool
deriving DecidableEq, Repr

/-- The three number controls of the result form, in render order
(part_004, lines 225-267). -/
def resultFormControls : List NumberControl :=
  [⟨"player1_wins", 0, 2, true⟩, ⟨"draws", 0, 1, false⟩, ⟨"player2_wins", 0, 2, true⟩]

/-- The `(min, max)` bounds of the control with the given name. -/
def controlBounds (n : String) (controls : List NumberControl) : Option (Nat × Nat) :=
  (controls.find? (fun c => c.name == n)).map (fun c => (c.min, c.max))

end MatchResultPage

end TMS

open TMS TMS.MatchResultPage in
/-- C1: the result-entry handler rejects an all-zero submission with a
validation error and never calls `MatchService.submitResult`; the form
bounds each player's wins to 0..2 and draws to 0..1; and every submission
that passes validation triggers exactly one `submitResult` call carrying
exactly the entered wins and draws. -/
theorem c1_submit_validation (validity : Bool) (fd : ResultFormData) :
    (fd.player1_wins = 0 ∧ fd.player2_wins = 0 ∧ fd.draws = 0 →
      submitCalls (handleSubmit validity fd) = [] ∧
      (validity = true →
        handleSubmit validity fd =
          .zeroRejected "At least one player must have wins or there must be draws")) ∧
    controlBounds "player1_wins" resultFormControls = some (0, 2) ∧
    controlBounds "player2_wins" resultFormControls = some (0, 2) ∧
    controlBounds "draws" resultFormControls = some (0, 1) ∧
    (validity = true → ¬(fd.player1_wins = 0 ∧ fd.player2_wins = 0 ∧ fd.draws = 0) →
      submitCalls (handleSubmit validity fd) = [fd]) := by
  refine ⟨?_, by decide, by decide, by decide, ?_⟩
  · intro hz
    cases validity with
    | false => exact ⟨rfl, by simp⟩
    | true =>
      refine ⟨?_, fun _ => ?_⟩ <;> simp [handleSubmit, submitCalls, hz]
  · intro hv hnz
    simp [handleSubmit, submitCalls, hv, hnz]

open TMS TMS.MatchResultPage in
/-- Witness for C1 at concrete inputs: the all-zero form is rejected with
the validation error, and a valid 2-1 result is submitted exactly once
with the entered values. -/
theorem c1_submit_validation_witness :
    submitCalls (handleSubmit true ⟨0, 0, 0⟩) = [] ∧
    handleSubmit true ⟨0, 0, 0⟩ =
      .zeroRejected "At least one player must have wins or there must be draws" ∧
    submitCalls (handleSubmit true ⟨2, 1, 0⟩) = [⟨2, 1, 0⟩] :=
  ⟨((c1_submit_validation true ⟨0, 0, 0⟩).1 (by decide)).1,
   ((c1_submit_validation true ⟨0, 0, 0⟩).1 (by decide)).2 rfl,
   (c1_submit_validation true ⟨2, 1, 0⟩).2.2.2.2 rfl (by decide)⟩

namespace TMS

namespace TournamentDetail

/-- A pending edit to one standing row (TournamentCreate.tsx,
`editedStandings : Record<string, Partial<Standing>>`): the fields the
edit table writes, each present only when edited. -/
structure StandingPatch where
  rank : Option Nat
  matches_played : Option Nat
  match_points : Option Nat
  game_points : Option Nat
  game_win_percentage : Option Rat
  opponents_match_win_percentage : Option Rat
  opponents_game_win_percentage : Option Rat
  active : Option Bool
deriving DecidableEq, Repr

/-- JS object spread `{...standing, ...patch}`: fields present in the
patch override the standing's. -/
def applyPatch (s : Standing) (p : StandingPatch) : Standing :=
  { s with
    rank := p.rank.getD s.rank
    matches_played := p.matches_played.getD s.matches_played
    match_points := p.match_points.getD s.match_points
    game_points := p.game_points.getD s.game_points
    game_win_percentage := p.game_win_percentage.getD s.game_win_percentage
    opponents_match_win_percentage :=
      p.opponents_match_win_percentage.getD s.opponents_match_win_percentage
    opponents_game_win_percentage :=
      p.opponents_game_win_percentage.getD s.opponents_game_win_percentage
    active := p.active.getD s.active }

/-- `saveStandingsChanges` (TournamentCreate.tsx, lines 905-933): merges
the pending edits into the held standings and sends them to the server
via `TournamentService.updateStandings`.  Returns the issued request and
its `standings` body. -/
def saveStandingsChanges (id : String) (standings : List Standing)
    (editedStandings : String → Option StandingPatch) : Request × List Standing :=
  let updatedStandings := standings.map (fun standing =>
    match editedStandings standing.id with
    | some p => applyPatch standing p
    | none => standing)
  (TournamentService.updateStandings id, updatedStandings)

/-- A phase-transition action offered by the tournament detail header
(TournamentCreate.tsx, lines 1298-1320). -/
inductive HeaderAction
  | startTournament
  | nextRound
  | endTournament
deriving DecidableEq, Repr

/-- The header action buttons rendered for a tournament status
(TournamentCreate.tsx, lines 1298-1320): Start when `planned`; Next Round
and End Tournament when `active`. -/
def headerActions (status : String) : List HeaderAction :=
  (if status = "planned" then [.startTournament] else []) ++
  (if status = "active" then [.nextRound, .endTournament] else [])

/-- The action cell of one current-round match row (TournamentCreate.tsx,
lines 1570-1581): an Enter Result link, or a disabled button labelled
Completed / BYE. -/
inductive RowAction
  | enterResult (matchId : String)
  | disabledControl (label : String)
deriving DecidableEq, Repr

/-- Action rendered for one match row: `Enter Result` when the match is
not completed and has a (truthy) `player2_id`, otherwise a disabled
button labelled `Completed` when `player2_id` is present and `BYE` when
it is not. -/
def matchRowAction (m : Match) : RowAction :=
  if m.status ≠ "completed" ∧ jsTruthy m.player2_id = true then
    .enterResult m.id
  else
    .disabledControl (if jsTruthy m.player2_id then "Completed" else "BYE")

/-- The player-2 cell of a match row (TournamentCreate.tsx, line 1564):
`match.player2_name || 'BYE'`. -/
def matchRowPlayer2Cell (m : Match) : String :=
  jsOrElse m.player2_name "BYE"

/-- The action cells of the Current Round Matches tab (TournamentCreate.tsx,
lines 1532-1587): nothing while the tournament is `planned`, otherwise one
action per held match row regardless of tournament status. -/
def matchesTabActions (tournamentStatus : String) (heldMatches : List Match) : List RowAction :=
  if tournamentStatus = "planned" then [] else heldMatches.map matchRowAction

end TournamentDetail

end TMS

open TMS TMS.TournamentDetail in
/-- C2 counterexample: at a concrete input, `saveStandingsChanges` sends
the client-held standing records to the backend with a PUT to
`/tournaments/t1/standings`, so the system does write standings back to
the server. -/
theorem c2_counterexample :
    saveStandingsChanges "t1"
        [⟨"s1", "p1", "Alice", 1, 3, 9, 6, 1, 1, 0, 0, true⟩] (fun _ => none) =
      (⟨.put, "/tournaments/t1/standings"⟩,
        [⟨"s1", "p1", "Alice", 1, 3, 9, 6, 1, 1, 0, 0, true⟩]) := by
  decide

open TMS TMS.TournamentDetail in
/-- C2 amended: standings views are fetched via `getStandings` (a GET of
`/tournaments/{id}/standings`), but the client also has a standings write
path: `saveStandingsChanges` sends the client-held Standing records, with
any client edits merged in, back to the server via a PUT to the same
endpoint; rows without a pending edit are sent exactly as held. -/
theorem c2_standings_write_path (id : String) (standings : List Standing)
    (editedStandings : String → Option StandingPatch) :
    TournamentService.getStandings id = ⟨.get, "/tournaments/" ++ id ++ "/standings"⟩ ∧
    (saveStandingsChanges id standings editedStandings).1 =
      ⟨.put, "/tournaments/" ++ id ++ "/standings"⟩ ∧
    ((∀ sid, editedStandings sid = none) →
      (saveStandingsChanges id standings editedStandings).2 = standings) := by
  refine ⟨rfl, rfl, fun h => ?_⟩
  simp only [saveStandingsChanges, h]
  exact List.map_id standings

open TMS TMS.TournamentDetail in
/-- Witness for the amended C2 at a concrete input: with no pending edits,
the save path PUTs the held standings unchanged. -/
theorem c2_standings_write_path_witness :
    (saveStandingsChanges "t1"
        [⟨"s1", "p1", "Alice", 1, 3, 9, 6, 1, 1, 0, 0, true⟩] (fun _ => none)).1 =
      ⟨.put, "/tournaments/" ++ "t1" ++ "/standings"⟩ ∧
    (saveStandingsChanges "t1"
        [⟨"s1", "p1", "Alice", 1, 3, 9, 6, 1, 1, 0, 0, true⟩] (fun _ => none)).2 =
      [⟨"s1", "p1", "Alice", 1, 3, 9, 6, 1, 1, 0, 0, true⟩] :=
  ⟨(c2_standings_write_path "t1" _ _).2.1,
   (c2_standings_write_path "t1" _ _).2.2 (fun _ => rfl)⟩

open TMS TMS.TournamentDetail in
/-- C3 counterexample: a tournament rendered with status `completed` and a
held pending match with a second player offers an Enter Result action in
the Current Round Matches tab, so a match-mutation action is still
offered after completion (the phase buttons themselves are gone). -/
theorem c3_counterexample :
    headerActions "completed" = [] ∧
    matchesTabActions "completed"
        [⟨"m1", "t1", 2, none, none, 1, "p1", "Alice", some "p2", some "Bob",
          0, 0, 0, "pending", "", none, none, none⟩] =
      [.enterResult "m1"] := by
  exact ⟨rfl, by decide⟩

open TMS TMS.TournamentDetail in
/-- C3 amended: Start Tournament is offered iff status is `planned`; Next
Round and End Tournament are offered iff status is `active`; once
`completed` no phase-transition action is offered — but each match row's
Enter Result action is gated only on that match's own status and
`player2_id`, independent of tournament status, so a non-completed match
held in state still offers result entry under a completed tournament. -/
theorem c3_state_machine_actions (status : String) (m : Match) :
    (HeaderAction.startTournament ∈ headerActions status ↔ status = "planned") ∧
    (HeaderAction.nextRound ∈ headerActions status ↔ status = "active") ∧
    (HeaderAction.endTournament ∈ headerActions status ↔ status = "active") ∧
    (status = "completed" → headerActions status = []) ∧
    (status ≠ "planned" → matchesTabActions status [m] = [matchRowAction m]) ∧
    (matchRowAction m = .enterResult m.id ↔
      m.status ≠ "completed" ∧ jsTruthy m.player2_id = true) := by
  refine ⟨?_, ?_, ?_, ?_, ?_, ?_⟩
  · by_cases hp : status = "planned" <;> by_cases ha : status = "active" <;>
      simp_all [headerActions]
  · by_cases hp : status = "planned" <;> by_cases ha : status = "active" <;>
      simp_all [headerActions]
  · by_cases hp : status = "planned" <;> by_cases ha : status = "active" <;>
      simp_all [headerActions]
  · intro hc
    subst hc
    rfl
  · intro hnp
    simp [matchesTabActions, hnp]
  · unfold matchRowAction
    by_cases h : m.status ≠ "completed" ∧ jsTruthy m.player2_id = true
    · simp [h]
    · simp only [if_neg h]
      constructor
      · intro hcontr
        cases hcontr
      · intro hcontr
        exact absurd hcontr h

open TMS TMS.TournamentDetail in
/-- Witness for the amended C3 at concrete inputs: each gating
equivalence evaluated on concrete statuses and a concrete pending
match. -/
theorem c3_state_machine_actions_witness :
    HeaderAction.startTournament ∈ headerActions "planned" ∧
    HeaderAction.nextRound ∈ headerActions "active" ∧
    HeaderAction.endTournament ∈ headerActions "active" ∧
    headerActions "completed" = [] ∧
    matchRowAction
        ⟨"m1", "t1", 2, none, none, 1, "p1", "Alice", some "p2", some "Bob",
          0, 0, 0, "pending", "", none, none, none⟩ =
      .enterResult "m1" := by
  have h := c3_state_machine_actions "planned"
    ⟨"m1", "t1", 2, none, none, 1, "p1", "Alice", some "p2", some "Bob",
      0, 0, 0, "pending", "", none, none, none⟩
  have h2 := c3_state_machine_actions "active"
    ⟨"m1", "t1", 2, none, none, 1, "p1", "Alice", some "p2", some "Bob",
      0, 0, 0, "pending", "", none, none, none⟩
  have h3 := c3_state_machine_actions "completed"
    ⟨"m1", "t1", 2, none, none, 1, "p1", "Alice", some "p2", some "Bob",
      0, 0, 0, "pending", "", none, none, none⟩
  exact ⟨h.1.mpr rfl, h2.2.1.mpr rfl, h2.2.2.1.mpr rfl, h3.2.2.2.1 rfl,
    h.2.2.2.2.2.mpr (by decide)⟩

open TMS TMS.TournamentDetail in
/-- C4: in a current-round match row, the second player is displayed as
BYE when `player2_name` is absent; Enter Result is offered iff the match
is not completed and has a `player2_id`; and a match without `player2_id`
never gets a result-entry action, only the disabled BYE control. -/
theorem c4_bye_match_row (m : Match) :
    (m.player2_name = none → matchRowPlayer2Cell m = "BYE") ∧
    (matchRowAction m = .enterResult m.id ↔
      m.status ≠ "completed" ∧ jsTruthy m.player2_id = true) ∧
    (m.player2_id = none → matchRowAction m = .disabledControl "BYE") := by
  refine ⟨fun h => ?_, ?_, fun h => ?_⟩
  · simp [matchRowPlayer2Cell, jsOrElse, h]
  · unfold matchRowAction
    by_cases h : m.status ≠ "completed" ∧ jsTruthy m.player2_id = true
    · simp [h]
    · simp only [if_neg h]
      constructor
      · intro hcontr
        cases hcontr
      · intro hcontr
        exact absurd hcontr h
  · have ht : jsTruthy m.player2_id = false := by simp [jsTruthy, h]
    unfold matchRowAction
    simp [ht]

open TMS TMS.TournamentDetail in
/-- Witness for C4 at a concrete bye match: the row displays BYE and only
the disabled BYE control, and at a concrete playable match it offers
Enter Result. -/
theorem c4_bye_match_row_witness :
    matchRowPlayer2Cell
        ⟨"m2", "t1", 1, none, none, 2, "p1", "Alice", none, none,
          0, 0, 0, "pending", "", none, none, none⟩ = "BYE" ∧
    matchRowAction
        ⟨"m2", "t1", 1, none, none, 2, "p1", "Alice", none, none,
          0, 0, 0, "pending", "", none, none, none⟩ =
      .disabledControl "BYE" ∧
    matchRowAction
        ⟨"m3", "t1", 1, none, none, 3, "p1", "Alice", some "p2", some "Bob",
          0, 0, 0, "pending", "", none, none, none⟩ =
      .enterResult "m3" :=
  ⟨(c4_bye_match_row _).1 rfl, (c4_bye_match_row _).2.2 rfl,
   (c4_bye_match_row _).2.1.mpr (by decide)⟩

namespace TMS

namespace MatchResultPage

/-- Whether the MatchResult page shows the result-entry card rather than
the completed-result card (part_004, line 184: the ternary on
`match.status === 'completed'`). -/
def resultEntryCardShown (matchStatus : String) : Bool :=
  matchStatus != "completed"

/-- Whether the Intentional Draw button is rendered (part_004, lines
269-277): it sits inside the result-entry card, so it is offered exactly
when that card is shown.  No tournament configuration reaches this page:
the component fetches only the match. -/
def intentionalDrawOffered (matchStatus : String) : Bool :=
  resultEntryCardShown matchStatus

/-- The `disabled` attribute of the Intentional Draw button (part_004,
line 273): `submitting || success`. -/
def intentionalDrawDisabled (submitting success : Bool) : Bool :=
  submitting || success

/-- `handleIntentionalDraw` (part_004, lines 108-128): unconditionally
calls `MatchService.submitIntentionalDraw` for the routed match id. -/
def handleIntentionalDraw (matchId : String) : Request :=
  MatchService.submitIntentionalDraw matchId

end MatchResultPage

namespace TournamentDetail

/-- `fetchAvailablePlayers` (TournamentCreate.tsx, lines 758-772): keeps
the players of the full roster whose id is not among the captured
registered-player list. -/
def fetchAvailablePlayers (capturedPlayers allPlayers : List Player) : List Player :=
  allPlayers.filter (fun p => !(capturedPlayers.any (fun q => q.id == p.id)))

/-- The player-related slice of the tournament detail component state. -/
structure DetailPlayersState where
  players : List Player
  availablePlayers : List Player
deriving DecidableEq, Repr

/-- The server responses consumed by `fetchTournamentData` that concern
players: the tournament's registered players and the full roster. -/
structure PlayersFetchResponse where
  tournamentPlayers : List Player
  allPlayers : List Player
deriving DecidableEq, Repr

/-- `fetchTournamentData` (TournamentCreate.tsx, lines 720-756), player
slice.  It calls `setPlayers(playersData)` and then invokes
`fetchAvailablePlayers()`; both closures were created by the render that
started the fetch, so the `players` value read inside
`fetchAvailablePlayers` is the state captured at that render
(`s.players`), not the freshly fetched `playersData` — React state
updates do not mutate the bindings of already-created closures. -/
def fetchTournamentData (s : DetailPlayersState) (response : PlayersFetchResponse) :
    DetailPlayersState :=
  { players := response.tournamentPlayers
    availablePlayers := fetchAvailablePlayers s.players response.allPlayers }

end TournamentDetail

end TMS

open TMS TMS.MatchResultPage in
/-- C5 counterexample: for a tournament whose
`structure_config.allow_intentional_draws` is `false` and a pending
match, the MatchResult page still offers the Intentional Draw button
enabled, and clicking it submits the intentional draw; nothing
client-side consults the flag (the page never receives the tournament
configuration). -/
theorem c5_counterexample :
    (Tournament.mk (some "t1") "Cup" "modern" "swiss" "2026-01-10" "LGS" "active"
        4 2 50 ⟨some false, none, none, none, none⟩
        ⟨true, true, true, true⟩).structure_config.allow_intentional_draws = some false ∧
    intentionalDrawOffered "pending" = true ∧
    intentionalDrawDisabled false false = false ∧
    handleIntentionalDraw "m1" = ⟨.post, "/matches/m1/intentional-draw"⟩ := by
  decide

open TMS TMS.MatchResultPage in
/-- C5 amended: the intentional-draw action is offered for exactly the
non-completed matches and is disabled only while a submission is in
flight or after success; when invoked it POSTs
`/matches/{id}/intentional-draw`.  The `allow_intentional_draws` flag is
not consulted client-side (enforcement, if any, is server-side). -/
theorem c5_intentional_draw_ungated (matchStatus : String)
    (submitting success : Bool) (matchId : String) :
    (intentionalDrawOffered matchStatus = true ↔ matchStatus ≠ "completed") ∧
    (intentionalDrawDisabled submitting success = false ↔
      submitting = false ∧ success = false) ∧
    handleIntentionalDraw matchId = ⟨.post, "/matches/" ++ matchId ++ "/intentional-draw"⟩ := by
  refine ⟨?_, ?_, rfl⟩
  · simp [intentionalDrawOffered, resultEntryCardShown, bne_iff_ne]
  · cases submitting <;> cases success <;> simp [intentionalDrawDisabled]

open TMS TMS.MatchResultPage in
/-- Witness for the amended C5 at concrete inputs: a pending match with
no submission in flight offers the enabled draw action and its request. -/
theorem c5_intentional_draw_ungated_witness :
    intentionalDrawOffered "pending" = true ∧
    intentionalDrawDisabled false false = false ∧
    handleIntentionalDraw "m9" = ⟨.post, "/matches/" ++ "m9" ++ "/intentional-draw"⟩ :=
  ⟨(c5_intentional_draw_ungated "pending" false false "m9").1.mpr (by decide),
   (c5_intentional_draw_ungated "pending" false false "m9").2.1.mpr ⟨rfl, rfl⟩,
   (c5_intentional_draw_ungated "pending" false false "m9").2.2⟩

open TMS in
/-- C9 counterexample: at match id `m1` the two wrappers issue requests
to different endpoint paths (`/matches/m1/intentional-draw` versus
`/matches/m1/draw`), so they are not the same operation on the match. -/
theorem c9_counterexample :
    MatchService.submitIntentionalDraw "m1" ≠ TournamentService.drawMatch "m1" := by
  decide

open TMS in
/-- C9 amended: both wrappers issue a POST scoped to the match, but to
distinct endpoint paths: `MatchService.submitIntentionalDraw` posts
`/matches/{id}/intentional-draw` while `TournamentService.drawMatch`
posts `/matches/{id}/draw`; for every match id the two paths differ. -/
theorem c9_draw_wrappers_differ (matchId : String) :
    (MatchService.submitIntentionalDraw matchId).method = .post ∧
    (TournamentService.drawMatch matchId).method = .post ∧
    (MatchService.submitIntentionalDraw matchId).path =
      "/matches/" ++ matchId ++ "/intentional-draw" ∧
    (TournamentService.drawMatch matchId).path = "/matches/" ++ matchId ++ "/draw" ∧
    (MatchService.submitIntentionalDraw matchId).path ≠
      (TournamentService.drawMatch matchId).path := by
  refine ⟨rfl, rfl, rfl, rfl, fun h => ?_⟩
  have hl := congrArg String.length h
  simp only [MatchService.submitIntentionalDraw, TournamentService.drawMatch,
    String.length_append] at hl
  have h1 : ("/intentional-draw" : String).length = 17 := rfl
  have h2 : ("/draw" : String).length = 5 := rfl
  rw [h1, h2] at hl
  omega

open TMS in
/-- Witness for the amended C9 at a concrete match id: the two wrapper
paths differ at `m1`. -/
theorem c9_draw_wrappers_differ_witness :
    (MatchService.submitIntentionalDraw "m1").path ≠ (TournamentService.drawMatch "m1").path :=
  (c9_draw_wrappers_differ "m1").2.2.2.2

open TMS TMS.TournamentDetail in
/-- C10: evaluation of the code at the failing input.  On a fresh load of
a tournament with registered player `p1` (the render-captured `players`
state is still the initial `[]`), `fetchTournamentData` leaves `p1` both
registered and listed among `availablePlayers`: the filter ran against
the stale captured list, so the offered set is not disjoint from the
registered set, contradicting the code's own intent of filtering out
players already in the tournament. -/
theorem c10_stale_available_players :
    (fetchTournamentData ⟨[], []⟩
        ⟨[⟨"p1", "Alice", "alice@example.com", true⟩],
          [⟨"p1", "Alice", "alice@example.com", true⟩]⟩).players =
      [⟨"p1", "Alice", "alice@example.com", true⟩] ∧
    (⟨"p1", "Alice", "alice@example.com", true⟩ : Player) ∈
      (fetchTournamentData ⟨[], []⟩
        ⟨[⟨"p1", "Alice", "alice@example.com", true⟩],
          [⟨"p1", "Alice", "alice@example.com", true⟩]⟩).availablePlayers := by
  decide

namespace TMS

namespace ApiClient

/-- The body of a failed server response as read by the interceptor
(apiClient.ts, line 41): optional `error` and `message` fields. -/
structure ErrorData where
  error : Option String
  message : Option String
deriving DecidableEq, Repr

/-- The `error.response` carried by a transport failure when the server
answered with an error status. -/
structure ErrorResponse where
  data : ErrorData
  status : Nat
deriving DecidableEq, Repr

/-- The axios failure object the response interceptor receives: a server
response, or a sent-but-unanswered request, or a setup failure with an
optional message. -/
structure TransportError where
  response : Option ErrorResponse
  request : Option Unit
  message : Option String
deriving DecidableEq, Repr

/-- The structured error the interceptor rejects with (apiClient.ts,
`interface ApiError`): an Error with `name`, `message` and optional
`status`. -/
structure ApiError where
  name : String
  message : String
  status : Option Nat
deriving DecidableEq, Repr

/-- The `errorMessage` computation of the response interceptor
(apiClient.ts, lines 37-51): data.error, else data.message, else a
`Server error: <status>` string; no-response message when only the
request exists; otherwise the setup error's message or the unknown-error
default. -/
def formatErrorMessage (e : TransportError) : String :=
  match e.response with
  | some r =>
    jsOrElse r.data.error (jsOrElse r.data.message ("Server error: " ++ toString r.status))
  | none =>
    match e.request with
    | some _ => "No response from server. Please check your connection."
    | none => jsOrElse e.message "An unknown error occurred"

/-- The response interceptor's rejection value (apiClient.ts, lines
53-58): a fresh `ApiError` named `ApiError` carrying the formatted
message and the response status when one exists; the raw transport error
is not returned. -/
def responseInterceptor (e : TransportError) : ApiError :=
  { name := "ApiError"
    message := formatErrorMessage e
    status := e.response.map (fun r => r.status) }

end ApiClient

/-- `jsOrElse` never yields the empty string when its fallback is
nonempty. -/
theorem jsOrElse_ne_empty (a : Option String) (b : String) (hb : b ≠ "") :
    jsOrElse a b ≠ "" := by
  cases a with
  | none => simpa [jsOrElse] using hb
  | some s =>
    by_cases h : s.isEmpty
    · simpa [jsOrElse, h] using hb
    · simp only [jsOrElse, h, Bool.false_eq_true, if_false]
      intro he
      exact h (by rw [he]; decide)

/-- `jsOrElse` yields either the optional string's content or the
fallback. -/
theorem jsOrElse_cases (a : Option String) (b : String) :
    some (jsOrElse a b) = a ∨ jsOrElse a b = b := by
  cases a with
  | none => exact Or.inr rfl
  | some s =>
    by_cases h : s.isEmpty
    · exact Or.inr (by simp [jsOrElse, h])
    · exact Or.inl (by simp [jsOrElse, h])

/-- A string append whose left part is nonempty is nonempty. -/
theorem append_ne_empty_left (s t : String) (hs : s ≠ "") : s ++ t ≠ "" := by
  intro h
  have hd := congrArg String.data h
  rw [String.data_append] at hd
  have hsd : s.data = [] := (List.append_eq_nil.mp hd).1
  exact hs (String.ext hsd)

end TMS

open TMS TMS.ApiClient in
/-- C7: every failed request is rejected with a structured error: the
interceptor's rejection value is named `ApiError`, carries a nonempty
human-readable message drawn from the server's error/message field, a
`Server error: <status>` string, the no-response message, or the request
setup message (with an unknown-error default), and carries the HTTP
status exactly when a server response exists; the raw transport error is
never the rejection value. -/
theorem c7_structured_errors (e : TransportError) :
    (responseInterceptor e).name = "ApiError" ∧
    (responseInterceptor e).status = e.response.map (fun r => r.status) ∧
    (responseInterceptor e).message ≠ "" ∧
    ((∃ r, e.response = some r ∧
        (some (responseInterceptor e).message = r.data.error ∨
         some (responseInterceptor e).message = r.data.message ∨
         (responseInterceptor e).message = "Server error: " ++ toString r.status)) ∨
     (e.response = none ∧ e.request.isSome = true ∧
        (responseInterceptor e).message =
          "No response from server. Please check your connection.") ∨
     (e.response = none ∧ e.request = none ∧
        (some (responseInterceptor e).message = e.message ∨
         (responseInterceptor e).message = "An unknown error occurred"))) := by
  obtain ⟨resp, req, msg⟩ := e
  refine ⟨rfl, rfl, ?_, ?_⟩
  · cases resp with
    | some r =>
      exact jsOrElse_ne_empty _ _
        (jsOrElse_ne_empty _ _ (append_ne_empty_left _ _ (by decide)))
    | none =>
      cases req with
      | some u =>
        have hmsg : (responseInterceptor ⟨none, some u, msg⟩).message =
            "No response from server. Please check your connection." := rfl
        rw [hmsg]
        decide
      | none => exact jsOrElse_ne_empty _ _ (by decide)
  · cases resp with
    | some r =>
      left
      refine ⟨r, rfl, ?_⟩
      have hm : (responseInterceptor ⟨some r, req, msg⟩).message =
          jsOrElse r.data.error
            (jsOrElse r.data.message ("Server error: " ++ toString r.status)) := rfl
      rw [hm]
      rcases jsOrElse_cases r.data.error
          (jsOrElse r.data.message ("Server error: " ++ toString r.status)) with h | h
      · exact Or.inl h
      · rw [h]
        rcases jsOrElse_cases r.data.message ("Server error: " ++ toString r.status) with
            h2 | h2
        · exact Or.inr (Or.inl h2)
        · exact Or.inr (Or.inr h2)
    | none =>
      cases req with
      | some u => exact Or.inr (Or.inl ⟨rfl, rfl, rfl⟩)
      | none =>
        exact Or.inr (Or.inr ⟨rfl, rfl, jsOrElse_cases msg "An unknown error occurred"⟩)

open TMS TMS.ApiClient in
/-- Witness for C7 at a concrete failure: a 500 response with an empty
body yields an `ApiError` with the server-error message and status
500. -/
theorem c7_structured_errors_witness :
    (responseInterceptor ⟨some ⟨⟨none, none⟩, 500⟩, none, none⟩).name = "ApiError" ∧
    (responseInterceptor ⟨some ⟨⟨none, none⟩, 500⟩, none, none⟩).status = some 500 ∧
    (responseInterceptor ⟨some ⟨⟨none, none⟩, 500⟩, none, none⟩).message ≠ "" :=
  ⟨(c7_structured_errors _).1,
   (c7_structured_errors ⟨some ⟨⟨none, none⟩, 500⟩, none, none⟩).2.1.trans rfl,
   (c7_structured_errors _).2.2.1⟩

namespace TMS

/-- The order imposed by `fetchBracketData`'s sort comparator
(BracketView.tsx, lines 30-34): round ascending, then bracket position
ascending, a missing `bracket_position` comparing as 0. -/
def bracketOrder (a b : Match) : Prop :=
  a.round < b.round ∨
    (a.round = b.round ∧ a.bracket_position.getD 0 ≤ b.bracket_position.getD 0)

instance : DecidableRel bracketOrder := fun a b => by
  unfold bracketOrder
  exact inferInstance

instance : IsTotal Match bracketOrder := ⟨by
  intro a b
  unfold bracketOrder
  rcases Nat.lt_trichotomy a.round b.round with h | h | h
  · exact Or.inl (Or.inl h)
  · rcases Nat.le_total (a.bracket_position.getD 0) (b.bracket_position.getD 0) with hp | hp
    · exact Or.inl (Or.inr ⟨h, hp⟩)
    · exact Or.inr (Or.inr ⟨h.symm, hp⟩)
  · exact Or.inr (Or.inl h)⟩

instance : IsTrans Match bracketOrder := ⟨by
  intro a b c hab hbc
  unfold bracketOrder at *
  rcases hab with h1 | ⟨h1, hp1⟩ <;> rcases hbc with h2 | ⟨h2, hp2⟩
  · exact Or.inl (by omega)
  · exact Or.inl (by omega)
  · exact Or.inl (by omega)
  · exact Or.inr ⟨by omega, le_trans hp1 hp2⟩⟩

/-- `fetchBracketData` (BracketView.tsx, lines 17-46): keeps the
tournament matches whose `bracket` tag strictly equals the requested
bracket type, then sorts them by round and bracket position (a stable
sort, as `Array.prototype.sort`). -/
def fetchBracketData (bracketType : String) (allMatches : List Match) : List Match :=
  List.insertionSort bracketOrder
    (allMatches.filter (fun m => m.bracket == some bracketType))

/-- The bracket views rendered in the detail page's Bracket tab
(TournamentCreate.tsx, lines 1805-1829): one `single` view for single
elimination, the parallel `winners` and `losers` views for double
elimination, none otherwise. -/
def bracketTabViews (s : String) : List String :=
  (if s = "single_elimination" then ["single"] else []) ++
  (if s = "double_elimination" then ["winners", "losers"] else [])

end TMS

open TMS in
/-- C8: the Bracket tab renders the two parallel winners/losers views for
a double-elimination tournament and a single view for single
elimination; each view holds exactly the matches whose bracket tag
equals the requested type, sorted by round ascending then bracket
position ascending with a missing position comparing as 0. -/
theorem c8_bracket_views (bracketType : String) (allMatches : List Match) (m : Match) :
    bracketTabViews "double_elimination" = ["winners", "losers"] ∧
    bracketTabViews "single_elimination" = ["single"] ∧
    (m ∈ fetchBracketData bracketType allMatches ↔
      m ∈ allMatches ∧ m.bracket = some bracketType) ∧
    List.Sorted bracketOrder (fetchBracketData bracketType allMatches) := by
  refine ⟨by decide, by decide, ?_, ?_⟩
  · unfold fetchBracketData
    rw [List.mem_insertionSort, List.mem_filter]
    simp [beq_iff_eq]
  · exact List.sorted_insertionSort bracketOrder _

open TMS in
/-- Witness for C8 at concrete inputs: of two matches tagged `winners`
and `losers`, the winners view contains exactly the former, and the tab
lists for both elimination structures are as stated. -/
theorem c8_bracket_views_witness :
    bracketTabViews "double_elimination" = ["winners", "losers"] ∧
    (⟨"m1", "t1", 1, some "winners", some 0, 1, "p1", "Alice", some "p2", some "Bob",
        0, 0, 0, "pending", "", none, none, none⟩ : Match) ∈
      fetchBracketData "winners"
        [⟨"m1", "t1", 1, some "winners", some 0, 1, "p1", "Alice", some "p2", some "Bob",
            0, 0, 0, "pending", "", none, none, none⟩,
         ⟨"m2", "t1", 1, some "losers", some 0, 2, "p3", "Cara", some "p4", some "Dan",
            0, 0, 0, "pending", "", none, none, none⟩] ∧
    ¬((⟨"m2", "t1", 1, some "losers", some 0, 2, "p3", "Cara", some "p4", some "Dan",
        0, 0, 0, "pending", "", none, none, none⟩ : Match) ∈
      fetchBracketData "winners"
        [⟨"m1", "t1", 1, some "winners", some 0, 1, "p1", "Alice", some "p2", some "Bob",
            0, 0, 0, "pending", "", none, none, none⟩,
         ⟨"m2", "t1", 1, some "losers", some 0, 2, "p3", "Cara", some "p4", some "Dan",
            0, 0, 0, "pending", "", none, none, none⟩]) :=
  ⟨(c8_bracket_views "winners" [] ⟨"m1", "t1", 1, some "winners", some 0, 1, "p1", "Alice",
      some "p2", some "Bob", 0, 0, 0, "pending", "", none, none, none⟩).1,
   (c8_bracket_views "winners" _ _).2.2.1.mpr ⟨by decide, rfl⟩,
   fun hmem => by
    have h := (c8_bracket_views "winners" _ _).2.2.1.mp hmem
    exact absurd h.2 (by decide)⟩

namespace TMS

namespace BackendModel

/-- Modelled from the spec: whether two players share prior match history
(spec 4.2, pairing history input).  The backend pairing engine
(backend/app/services/swiss_pairing.py) is absent from the source
snapshot. -/
def hasPlayed (history : List (String × String)) (p q : String) : Bool :=
  history.any (fun pr => (pr.1 == p && pr.2 == q) || (pr.1 == q && pr.2 == p))

/-- Modelled from the spec: forward search for the highest remaining
legal opponent of `p` (spec 4.2 step 2).  Returns the chosen opponent
and the remaining pool. -/
def pickOpponent (history : List (String × String)) (p : String) :
    List String → Option (String × List String)
  | [] => none
  | q :: rest =>
    if hasPlayed history p q then
      match pickOpponent history p rest with
      | some (o, remaining) => some (o, q :: remaining)
      | none => none
    else
      some (q, rest)

/-- Modelled from the spec: sequential pairing of the standings-ordered
pool (spec 4.2 steps 1-2, score groups flattened in standings order so
that the forward search doubles as the float into the next group).  The
fuel argument bounds the recursion by the pool size. -/
def pairSeqFuel (history : List (String × String)) :
    Nat → List String → Option (List (String × String))
  | _, [] => some []
  | 0, _ :: _ => none
  | fuel + 1, p :: rest =>
    match pickOpponent history p rest with
    | none => none
    | some (q, remaining) =>
      (pairSeqFuel history fuel remaining).map (fun ps => (p, q) :: ps)

/-- Modelled from the spec: pair one Swiss round from the
standings-ordered active players without rematches; `none` when no legal
sequential pairing exists (PairingImpossible). -/
def pairSeq (history : List (String × String)) (ranked : List String) :
    Option (List (String × String)) :=
  pairSeqFuel history ranked.length ranked

/-- Modelled from the spec: bye assignment (spec 4.2 step 3).  With an
odd pool, the lowest-ranked player who has not yet received a bye takes
it, falling back to the lowest-ranked player overall. -/
def chooseBye (ranked hadBye : List String) : Option String :=
  if ranked.length % 2 = 1 then
    match ranked.reverse.find? (fun p => !(hadBye.contains p)) with
    | some p => some p
    | none => ranked.getLast?
  else
    none

/-- Outcome of next-round generation: not ready, wrong structure, no
legal pairing, or the generated round's pairings (second player absent
for the bye). -/
inductive RoundOutcome
  | notReady
  | swissOnly
  | pairingImpossible
  | nextRound (pairings : List (String × Option String))
deriving DecidableEq, Repr

/-- Modelled from the spec: `generateRound`, the backend handler behind
POST `/tournaments/{id}/rounds/next` called by
`TournamentService.startNextRound` (backend/app/routes/tournaments.py
and swiss_pairing.py, absent from the source snapshot).  Spec: Swiss
only; requires the prior round fully resolved and returns NotReady
otherwise; then pairs the next round from the active players in
standings order with at most one bye. -/
def generateRound (t : Tournament) (currentMatches : List Match)
    (ranked : List String) (history : List (String × String))
    (hadBye : List String) : RoundOutcome :=
  if t.«structure» ≠ "swiss" then
    .swissOnly
  else if currentMatches.any (fun m => m.status != "completed") then
    .notReady
  else
    match chooseBye ranked hadBye with
    | some b =>
      match pairSeq history (ranked.erase b) with
      | some ps => .nextRound (ps.map (fun pq => (pq.1, some pq.2)) ++ [(b, none)])
      | none => .pairingImpossible
    | none =>
      match pairSeq history ranked with
      | some ps => .nextRound (ps.map (fun pq => (pq.1, some pq.2)))
      | none => .pairingImpossible

end BackendModel

end TMS

open TMS TMS.BackendModel in
/-- C6: the Next Round action POSTs `/tournaments/{id}/rounds/next`;
round generation applies to Swiss structures only, returns NotReady
whenever a current-round match is still pending, and produces a next
round's match set only when every current-round match is completed. -/
theorem c6_generate_round_gating (t : Tournament) (currentMatches : List Match)
    (ranked : List String) (history : List (String × String)) (hadBye : List String) :
    (∀ id, TournamentService.startNextRound id =
      ⟨.post, "/tournaments/" ++ id ++ "/rounds/next"⟩) ∧
    (t.«structure» ≠ "swiss" →
      generateRound t currentMatches ranked history hadBye = .swissOnly) ∧
    (t.«structure» = "swiss" → (∃ m ∈ currentMatches, m.status = "pending") →
      generateRound t currentMatches ranked history hadBye = .notReady) ∧
    (∀ ps, generateRound t currentMatches ranked history hadBye = .nextRound ps →
      t.«structure» = "swiss" ∧ ∀ m ∈ currentMatches, m.status = "completed") := by
  refine ⟨fun _ => rfl, ?_, ?_, ?_⟩
  · intro h
    simp [generateRound, h]
  · rintro hs ⟨m, hm, hp⟩
    have hany : currentMatches.any (fun m => m.status != "completed") = true :=
      List.any_eq_true.mpr ⟨m, hm, by simp [hp]⟩
    simp [generateRound, hs, hany]
  · intro ps h
    by_cases hsw : t.«structure» = "swiss"
    · refine ⟨hsw, fun m hm => ?_⟩
      by_cases hany : currentMatches.any (fun m => m.status != "completed") = true
      · simp [generateRound, hsw, hany] at h
      · have hf : currentMatches.any (fun m => m.status != "completed") = false :=
          Bool.eq_false_iff.mpr hany
        have hall := List.any_eq_false.mp hf m hm
        simpa using hall
    · exfalso
      simp [generateRound, hsw] at h

open TMS TMS.BackendModel in
/-- Witness for C6 at concrete inputs: a pending current-round match
makes generation return NotReady, a non-Swiss structure is refused, and
with the round resolved a two-player pool is paired. -/
theorem c6_generate_round_gating_witness :
    generateRound
        ⟨some "t1", "Cup", "modern", "swiss", "2026-01-10", "LGS", "active", 4, 1, 50,
          ⟨none, none, none, none, none⟩, ⟨true, true, true, true⟩⟩
        [⟨"m1", "t1", 1, none, none, 1, "p1", "Alice", some "p2", some "Bob",
            0, 0, 0, "pending", "", none, none, none⟩]
        ["p1", "p2"] [] [] = .notReady ∧
    generateRound
        ⟨some "t2", "KO", "modern", "single_elimination", "2026-01-10", "LGS", "active",
          0, 1, 50, ⟨none, none, none, none, none⟩, ⟨true, true, true, true⟩⟩
        [] [] [] [] = .swissOnly ∧
    (∀ m ∈ ([] : List TMS.Match), m.status = "completed") := by
  refine ⟨?_, ?_, ?_⟩
  · exact (c6_generate_round_gating _ _ ["p1", "p2"] [] []).2.2.1 rfl
      ⟨⟨"m1", "t1", 1, none, none, 1, "p1", "Alice", some "p2", some "Bob",
          0, 0, 0, "pending", "", none, none, none⟩, by decide, rfl⟩
  · exact (c6_generate_round_gating _ _ [] [] []).2.1 (by decide)
  · exact ((c6_generate_round_gating
        ⟨some "t1", "Cup", "modern", "swiss", "2026-01-10", "LGS", "active", 4, 1, 50,
          ⟨none, none, none, none, none⟩, ⟨true, true, true, true⟩⟩
        [] ["p1", "p2"] [] []).2.2.2 [("p1", some "p2")] (by decide)).2
